import Mathlib

/-!
Verification of the retrieval-and-generation core of the studyai backend
(`src/backend-python/app`). The Python services are shallowly embedded as
executable Lean definitions: texts are `List Char`, optional values are
`Option`, the external Qdrant engine is modelled by its interface contract
(it returns stored points that satisfy the query filter, in stored order).
Definitions keep the names of the Python functions they embed.
-/

namespace StudyAI

/-! ### Python-side primitives -/

/-- Python truthiness of an `Optional[List[int]]` value: `None` and `[]` are
falsy, a non-empty list is truthy (used by `if group_ids:` in the source). -/
def pyTruthyList (xs : Option (List Int)) : Bool :=
  match xs with
  | none => false
  | some l => !l.isEmpty

/-- Characters stripped by Python `str.strip()` with no arguments
(ASCII whitespace, as used for header values). -/
def pyIsSpace (c : Char) : Bool :=
  c = ' ' || c = '\t' || c = '\n' || c = '\x0d' || c = '\x0b' || c = '\x0c'

/-- Python `str.strip()`: drop leading and trailing whitespace. -/
def pyStrip (s : List Char) : List Char :=
  (s.dropWhile pyIsSpace).reverse.dropWhile pyIsSpace |>.reverse

/-- Digits-with-underscores tail of a Python decimal integer literal:
after the first digit, underscores may appear singly between digits. -/
def pyDigitsTail (s : List Char) (acc : Nat) : Option Nat :=
  match s with
  | [] => some acc
  | '_' :: c :: rest =>
    if c.isDigit then pyDigitsTail rest (acc * 10 + (c.toNat - 48)) else none
  | c :: rest =>
    if c.isDigit then pyDigitsTail rest (acc * 10 + (c.toNat - 48)) else none

/-- Magnitude part of Python `int(str)`: one digit, then digits possibly
separated by single underscores. -/
def pyDigits (s : List Char) : Option Nat :=
  match s with
  | c :: rest => if c.isDigit then pyDigitsTail rest (c.toNat - 48) else none
  | [] => none

/-- Python `int(str)` on an ASCII string: optional surrounding whitespace,
optional sign, decimal digits (with Python's inter-digit underscores).
Returns `none` where Python raises `ValueError`. -/
def pyInt (s : List Char) : Option Int :=
  match pyStrip s with
  | '+' :: rest => (pyDigits rest).map (fun n => (n : Int))
  | '-' :: rest => (pyDigits rest).map (fun n => -(n : Int))
  | rest => (pyDigits rest).map (fun n => (n : Int))

/-- Python `str.split(sep)` for a one-character separator: split `s` at every
occurrence of `sep`, keeping empty parts. -/
def pySplitChar (sep : Char) (s : List Char) : List (List Char) :=
  match s with
  | [] => [[]]
  | c :: rest =>
    let parts := pySplitChar sep rest
    if c = sep then
      [] :: parts
    else
      match parts with
      | [] => [[c]]
      | p :: ps => (c :: p) :: ps

/-! ### Vector store: document collection (`VectorStore.search_with_tenant_filter`) -/

/-- Payload of a point in the documents collection, per
`upsert_vectors_with_metadata` / `process_document_task`. -/
structure DocPayload where
  chunk_id : List Char
  document_id : List Char
  filename : List Char
  organization_id : Option Int
  group_id : Option Int
  owner_id : Option Int
  deriving DecidableEq, Repr

/-- A stored point of the documents collection (id, embedding vector,
payload). Scored ranking by cosine similarity is performed by the external
engine; the model keeps points in engine (similarity) order. -/
structure DocPoint where
  id : List Char
  vector : List Int
  payload : DocPayload
  deriving DecidableEq, Repr

/-- A single Qdrant `FieldCondition` as built by
`search_with_tenant_filter`: either `MatchAny` on `group_id` or
`MatchValue` on `owner_id`. -/
inductive DocCondition where
  | groupAny (gs : List Int)
  | ownerEq (u : Int)
  deriving DecidableEq, Repr

/-- Qdrant match semantics for a document-payload condition: `MatchValue`
on an absent (`None`) payload field never matches; `MatchAny` matches when
the scalar payload value is one of the given values. -/
def docCondMatches (c : DocCondition) (p : DocPayload) : Bool :=
  match c with
  | .groupAny gs =>
    match p.group_id with
    | some g => gs.contains g
    | none => false
  | .ownerEq u =>
    match p.owner_id with
    | some o => o = u
    | none => false

/-- A `must` filter is the conjunction of its conditions. -/
def docFilterMatches (conds : List DocCondition) (p : DocPayload) : Bool :=
  conds.all (fun c => docCondMatches c p)

/-- Engine contract for `client.query_points` on the documents collection:
the top-`limit` stored points that satisfy the filter, in engine order. -/
def queryPointsDocs (db : List DocPoint) (conds : List DocCondition)
    (limit : Nat) : List DocPoint :=
  (db.filter (fun pt => docFilterMatches conds pt.payload)).take limit

/-- `VectorStore.search_with_tenant_filter`: returns the result points and
whether the underlying engine was called. `organization_id` is received (for
logging) but contributes no filter condition. -/
def search_with_tenant_filter (db : List DocPoint) (query_vector : List Int)
    (organization_id : Option Int) (group_ids : Option (List Int))
    (user_id : Option Int) (limit : Nat) : List DocPoint × Bool :=
  let _ := query_vector
  let _ := organization_id
  if pyTruthyList group_ids then
    (queryPointsDocs db [DocCondition.groupAny (group_ids.getD [])] limit, true)
  else
    match user_id with
    | some u => (queryPointsDocs db [DocCondition.ownerEq u] limit, true)
    | none => ([], false)

/-! ### Vector store: semantic cache (`search_cache` / `save_to_cache`) -/

/-- Payload of a semantic-cache entry as assembled by `save_to_cache`:
each tenant field is present exactly when the corresponding branch stored
it. -/
structure CachePayload where
  response_text : List Char
  organization_id : Option Int
  group_ids : Option (List Int)
  user_id : Option Int
  deriving DecidableEq, Repr

/-- A stored cache entry: the query embedding it was saved under plus its
payload (`save_to_cache` mints a fresh uuid id, which no claim observes). -/
structure CacheEntry where
  vector : List Int
  payload : CachePayload
  deriving DecidableEq, Repr

/-- A cache filter condition as built by `search_cache`. -/
inductive CacheCondition where
  | orgEq (o : Int)
  | groupsAny (gs : List Int)
  | userEq (u : Int)
  deriving DecidableEq, Repr

/-- Qdrant match semantics for a cache condition. `MatchAny` against the
list-valued `group_ids` payload field matches when the two lists
intersect; conditions on absent fields never match. -/
def cacheCondMatches (c : CacheCondition) (p : CachePayload) : Bool :=
  match c with
  | .orgEq o =>
    match p.organization_id with
    | some v => v = o
    | none => false
  | .groupsAny gs =>
    match p.group_ids with
    | some vs => vs.any (fun v => gs.contains v)
    | none => false
  | .userEq u =>
    match p.user_id with
    | some v => v = u
    | none => false

def cacheFilterMatches (conds : List CacheCondition) (p : CachePayload) : Bool :=
  conds.all (fun c => cacheCondMatches c p)

/-- The scope filter built by `search_cache`: an `organization_id` equality
condition whenever the argument is set, then a `group_ids` `MatchAny` when
`group_ids` is truthy, else a `user_id` equality when set, else no valid
scope (`none`: the cache is skipped and the search is a miss). -/
def buildCacheFilter (organization_id : Option Int)
    (user_id : Option Int) (group_ids : Option (List Int)) :
    Option (List CacheCondition) :=
  let orgConds : List CacheCondition :=
    match organization_id with
    | some o => [CacheCondition.orgEq o]
    | none => []
  if pyTruthyList group_ids then
    some (orgConds ++ [CacheCondition.groupsAny (group_ids.getD [])])
  else
    match user_id with
    | some u => some (orgConds ++ [CacheCondition.userEq u])
    | none => none

/-- The hit record returned by `search_cache` (`CacheHit` without the
score, which is engine data). -/
structure CacheHit where
  response_text : List Char
  deriving DecidableEq, Repr

/-- Engine contract for `query_points` on the cache collection with
`limit=1` and `score_threshold`: the best stored entry that satisfies the
filter and whose cosine similarity with the query reaches the threshold.
Similarity admission is modelled as vector equality: every scenario in the
claims uses identical query vectors, whose cosine similarity is 1 and so
passes any threshold at most 1 (the default is 0.95). -/
def queryPointsCache (db : List CacheEntry) (query_vector : List Int)
    (conds : List CacheCondition) : Option CacheEntry :=
  (db.filter (fun e =>
    e.vector = query_vector && cacheFilterMatches conds e.payload)).head?

/-- `VectorStore.search_cache`: build the scope filter; with no valid scope
return a miss without querying; otherwise return the top-1 matching entry
above the threshold as a `CacheHit`. -/
def search_cache (db : List CacheEntry) (query_vector : List Int)
    (organization_id : Option Int) (user_id : Option Int)
    (group_ids : Option (List Int)) : Option CacheHit :=
  match buildCacheFilter organization_id user_id group_ids with
  | none => none
  | some conds =>
    match queryPointsCache db query_vector conds with
    | some e => some { response_text := e.payload.response_text }
    | none => none

/-- The payload `save_to_cache` assembles when it does save:
`organization_id` stored iff provided, `group_ids` stored iff truthy,
`user_id` stored iff provided. -/
def savedCachePayload (response_text : List Char)
    (organization_id : Option Int) (user_id : Option Int)
    (group_ids : Option (List Int)) : CachePayload :=
  { response_text := response_text
    organization_id := organization_id
    group_ids := if pyTruthyList group_ids then group_ids else none
    user_id := user_id }

/-- `VectorStore.save_to_cache`: a no-op unless at least one of
`group_ids` (truthy) or `user_id` is present; otherwise upsert a fresh
entry carrying the query vector and the assembled payload. -/
def save_to_cache (db : List CacheEntry) (query_vector : List Int)
    (response_text : List Char) (organization_id : Option Int)
    (user_id : Option Int) (group_ids : Option (List Int)) :
    List CacheEntry :=
  if !pyTruthyList group_ids && user_id = none then
    db
  else
    db ++ [{ vector := query_vector
             payload := savedCachePayload response_text organization_id
               user_id group_ids }]

/-! ### Chat service (`app/services/grpc/chat_service.py`) -/

/-- The `(organization_id, group_ids)` pair extracted from gRPC metadata. -/
structure TenantContext where
  organization_id : Option Int
  group_ids : Option (List Int)
  deriving DecidableEq, Repr

/-- The organization branch of `get_tenant_context_from_metadata`: a missing
or empty header yields `None`; a header that `int()` rejects is silently
dropped (`except ValueError: pass`). -/
def parseOrgHeader (header : Option (List Char)) : Option Int :=
  match header with
  | none => none
  | some v => if v.isEmpty then none else pyInt v

/-- The group branch of `get_tenant_context_from_metadata`: split the header
on commas, drop parts that are empty after stripping, parse the rest with
`int()`; a single `ValueError` aborts the comprehension and leaves
`group_ids = None`. -/
def parseGroupIdsHeader (header : Option (List Char)) : Option (List Int) :=
  match header with
  | none => none
  | some v =>
    if v.isEmpty then none
    else
      let parts := (pySplitChar ',' v).filter (fun p => !(pyStrip p).isEmpty)
      let parsed := parts.map (fun p => pyInt (pyStrip p))
      if parsed.all (fun r => r.isSome) then
        some (parsed.map (fun r => r.getD 0))
      else
        none

/-- `get_tenant_context_from_metadata`: both headers are parsed
independently. -/
def get_tenant_context_from_metadata (orgHeader groupHeader : Option (List Char)) :
    TenantContext :=
  { organization_id := parseOrgHeader orgHeader
    group_ids := parseGroupIdsHeader groupHeader }

/-- The cache lookup the `Chat` handler performs on a request (step 2 of
the handler): `search_cache` is called with the query vector, `user_id` and
`group_ids` only — the extracted `organization_id` is accepted here to
mirror the handler's scope but is not forwarded, exactly as in the source
call at `chat_service.py:158`. -/
def chatCacheLookup (db : List CacheEntry) (query_vector : List Int)
    (organization_id : Option Int) (user_id : Int)
    (group_ids : Option (List Int)) : Option CacheHit :=
  let _ := organization_id
  search_cache db query_vector none (some user_id) group_ids

/-- The cache save the `Chat` handler performs after a successful stream
(`chat_service.py:274`): again without the extracted `organization_id`. -/
def chatCacheSave (db : List CacheEntry) (query_vector : List Int)
    (response_text : List Char) (organization_id : Option Int)
    (user_id : Int) (group_ids : Option (List Int)) : List CacheEntry :=
  let _ := organization_id
  save_to_cache db query_vector response_text none (some user_id) group_ids

/-- A reranked passage as consumed by the context-preparation step of
`Chat` (`res["text"]` plus its rerank score). -/
structure RankedDoc where
  text : List Char
  score : Int
  deriving DecidableEq, Repr

/-- Step 5 of the `Chat` handler (`chat_service.py:242`): the context
documents handed to the LLM are the reranked texts, all of them, in rerank
order — no token budgeting is applied. -/
def chatContextDocs (ranked : List RankedDoc) : List (List Char) :=
  ranked.map (fun r => r.text)

/-- Python `"Error"` prefix test (`chunk.startswith("Error")`). -/
def startsWithError (chunk : List Char) : Bool :=
  ("Error".data).isPrefixOf chunk

/-- Python `s.strip() != ""`: some character survives stripping. -/
def pyStripNonEmpty (s : List Char) : Bool :=
  !(pyStrip s).isEmpty

/-- Outcome of the LLM-stream phase of `Chat` (steps 6-7,
`chat_service.py:248-296`). `forwarded` is the sequence of answer chunks
relayed to the client, in order. -/
structure ChatStreamOutcome where
  forwarded : List (List Char)
  llm_error : Bool
  response_text : List Char
  sources_emitted : Bool
  cache_saved : Bool
  deriving DecidableEq, Repr

/-- Steps 6-7 of `Chat`: every stream chunk is forwarded; a chunk starting
with `"Error"` sets the sticky `llm_error` flag and is excluded from
`full_response`; after the stream, the sources message is emitted and the
cache save attempted only when no error chunk was seen, and the save
happens only for a non-whitespace concatenated response. -/
def chatStreamPhase (chunks : List (List Char)) : ChatStreamOutcome :=
  let llm_error := chunks.any startsWithError
  let response_text := (chunks.filter (fun c => !startsWithError c)).flatten
  { forwarded := chunks
    llm_error := llm_error
    response_text := response_text
    sources_emitted := !llm_error
    cache_saved := !llm_error && pyStripNonEmpty response_text }

/-! ### Token counter (`app/services/token_counter.py`)

The tokenizer itself (`tiktoken`) is an external model runtime; the model
is parameterized by an abstract tokenizer `tk`, with the source's
character-approximation fallback `chars // 4` available as a concrete
instance. -/

/-- `TokenCounter.count_tokens` with tokenizer `tk`: empty text counts 0. -/
def count_tokens (tk : List Char → Nat) (s : List Char) : Nat :=
  if s.isEmpty then 0 else tk s

/-- The `CHARS_PER_TOKEN = 4` character-approximation fallback
(`len(text) // 4`). -/
def charsPerTokenFallback (s : List Char) : Nat :=
  s.length / 4

/-- The greedy selection loop of `truncate_context_docs`: keep a document
iff its token count still fits in the available budget; documents that do
not fit are skipped but later smaller documents may still be kept. -/
def truncateGreedy (tk : List Char → Nat) (available : Int)
    (docs : List (List Char)) (used : Nat) : List (List Char) × Bool :=
  match docs with
  | [] => ([], false)
  | d :: rest =>
    if ((used + count_tokens tk d : Nat) : Int) ≤ available then
      (d :: (truncateGreedy tk available rest (used + count_tokens tk d)).1,
       (truncateGreedy tk available rest (used + count_tokens tk d)).2)
    else
      ((truncateGreedy tk available rest used).1, true)

/-- `TokenCounter.truncate_context_docs` (documents carried as their text):
compute the available context budget
`max_context_tokens − system − query − history − reserve_output_tokens − 50`
and greedily select documents in their given order; empty input and an
exhausted budget short-circuit. -/
def truncate_context_docs (tk : List Char → Nat)
    (system_prompt query : List Char) (docs : List (List Char))
    (history : List (List Char)) (max_context_tokens reserve_output_tokens : Int) :
    List (List Char) × Bool :=
  if docs.isEmpty then ([], false)
  else
    let system_tokens := count_tokens tk system_prompt
    let query_tokens := count_tokens tk query
    let history_tokens := (history.map (count_tokens tk)).sum
    let available : Int := max_context_tokens - system_tokens - query_tokens
      - history_tokens - reserve_output_tokens - 50
    if available ≤ 0 then ([], true)
    else truncateGreedy tk available docs 0

/-! ### Thinking-tag scrubber (`openai_provider.py` / `anthropic_provider.py`)

Both providers share the same buffering scrubber inside
`generate_response`; it is embedded once below. -/

/-- `START_TAGS`, in the order the Python loops check them. -/
def startTagList : List (List Char) := ["<think>".data, "<thinking>".data]

/-- `END_TAGS`, in the order the Python loops check them. -/
def endTagList : List (List Char) := ["</think>".data, "</thinking>".data]

/-- Index of the first occurrence of `pat` in `s` (Python `s.find(pat)`,
restricted to `some`/`none` for found/not found). -/
def findSub (pat s : List Char) : Option Nat :=
  if pat.isPrefixOf s then some 0
  else
    match s with
    | [] => none
    | _ :: rest => (findSub pat rest).map (fun i => i + 1)

/-- Python `pat in s`. -/
def containsSub (pat s : List Char) : Bool :=
  (findSub pat s).isSome

/-- Python `s.split(pat, 1)` when `pat in s`: the parts before and after
the first occurrence. -/
def splitOnceAt (pat s : List Char) (i : Nat) : List Char × List Char :=
  (s.take i, s.drop (i + pat.length))

/-- Index of the last occurrence of `c` in `s` (Python `s.rfind(c)`). -/
def rfindChar (c : Char) (s : List Char) : Option Nat :=
  match s with
  | [] => none
  | a :: rest =>
    match rfindChar c rest with
    | some i => some (i + 1)
    | none => if a = c then some 0 else none

/-- Streaming state of the scrubber: the carry buffer and the
`is_thinking` flag. -/
structure ScrubState where
  buffer : List Char
  thinking : Bool
  deriving DecidableEq, Repr

/-- One iteration of the provider's `async for chunk` loop on a non-empty
content chunk: append to the buffer, then
- thinking: exit at the first end tag (in `END_TAGS` order) found in the
  buffer, keeping what follows; never yield;
- not thinking: split at the first start tag (in `START_TAGS` order) found
  in the buffer, yielding the part before it and entering thinking;
- otherwise retain from the last `<` when it starts a proper prefix of a
  start tag, yielding the safe part before it;
- otherwise yield the whole buffer. -/
def processChunk (st : ScrubState) (content : List Char) :
    List Char × ScrubState :=
  let b := st.buffer ++ content
  if st.thinking then
    match endTagList.find? (fun t => containsSub t b) with
    | some tag =>
      match findSub tag b with
      | some i => ([], { buffer := (splitOnceAt tag b i).2, thinking := false })
      | none => ([], { buffer := b, thinking := true })
    | none => ([], { buffer := b, thinking := true })
  else
    match startTagList.find? (fun t => containsSub t b) with
    | some tag =>
      match findSub tag b with
      | some i =>
        let (pre, post) := splitOnceAt tag b i
        (pre, { buffer := post, thinking := true })
      | none => ([], { buffer := b, thinking := false })
    | none =>
      match rfindChar '<' b with
      | some p =>
        let potential := b.drop p
        if startTagList.any (fun t => potential.isPrefixOf t && potential ≠ t) then
          (b.take p, { buffer := b.drop p, thinking := false })
        else
          (b, { buffer := [], thinking := false })
      | none => (b, { buffer := [], thinking := false })

/-- Run the stream loop from a state over the remaining chunks, skipping
empty chunks (`if not content: continue`), and at stream end flush the
buffer unless still thinking. Returns the concatenated yielded text. -/
def scrubFrom (st : ScrubState) (chunks : List (List Char)) : List Char :=
  match chunks with
  | [] => if !st.buffer.isEmpty && !st.thinking then st.buffer else []
  | c :: rest =>
    if c.isEmpty then scrubFrom st rest
    else
      let (out, st') := processChunk st c
      out ++ scrubFrom st' rest

/-- The client-visible text produced by `generate_response` for a given
sequence of LLM content chunks. -/
def scrubStream (chunks : List (List Char)) : List Char :=
  scrubFrom { buffer := [], thinking := false } chunks

/-! ### Ingestion worker (`app/tasks/document_tasks.py`)

`process_document_task` is a Celery task (`max_retries=3`,
`autoretry` via `raise self.retry(exc=e)` in the `except` branch). One
broker-level invocation of the task body is an attempt; the broker re-runs
the task after a retry-raise. External collaborators (control plane, chunk
DB, embedder, Qdrant) are modelled by per-attempt fault schedules. -/

/-- `rs.DocumentProcessingStatus` values used by the worker. -/
inductive DocStatus where
  | processing
  | completed
  | error
  deriving DecidableEq, Repr

/-- One `notify_status_update` call: the payload of the control-plane RPC
plus whether the control plane confirmed it (`update_document_status_via_grpc`
returns a Bool and never raises). -/
structure StatusNotification where
  document_id : List Char
  status : DocStatus
  chunks_count : Nat
  error_message : List Char
  delivered : Bool
  deriving DecidableEq, Repr

/-- Result of `parser.parse_file` for this document: the extracted text
chunks, a `ValueError` (validation failure, caught and returned without
retry), or an engine-level exception (propagates to the retry branch). -/
inductive ParseOutcome where
  | ok (chunks : List (List Char))
  | valueError (msg : List Char)
  | crash (msg : List Char)
  deriving DecidableEq, Repr

/-- Transient downstream faults during one attempt: exception messages for
the chunk-DB insert, the embedder, and the vector upsert (`none` = the
step succeeds), and whether the control-plane status RPC succeeds. -/
structure AttemptFaults where
  storeCrash : Option (List Char)
  embedCrash : Option (List Char)
  upsertCrash : Option (List Char)
  notifyOk : Bool
  deriving DecidableEq, Repr

/-- Observable outcome of one attempt: the `notify_status_update` calls in
send order (the initial `PROCESSING`, then the terminal call from the
`finally` block), whether the body ended in `raise self.retry`, and
whether the `finally` block deleted the file from disk. -/
structure AttemptOutcome where
  notifications : List StatusNotification
  retried : Bool
  fileDeleted : Bool
  deriving DecidableEq, Repr

/-- The `(final_status, final_chunks_count, final_error_message, retried)`
computed by the body of `process_document_task` before its `finally`
block. -/
def attemptBody (file_path : List Char) (fileExists : Bool)
    (fileSize maxFileSize : Nat) (parse : ParseOutcome)
    (faults : AttemptFaults) : DocStatus × Nat × List Char × Bool :=
  if !fileExists then
    (.error, 0, "File not found: ".data ++ file_path, false)
  else if fileSize > maxFileSize then
    (.error, 0, "File size (".data ++ (toString fileSize).data
      ++ ") exceeds maximum (".data ++ (toString maxFileSize).data ++ ")".data,
      false)
  else
    match parse with
    | .valueError msg => (.error, 0, msg, false)
    | .crash msg => (.error, 0, msg, true)
    | .ok chunks =>
      if chunks.isEmpty then
        (.completed, 0, "No text extracted from document".data, false)
      else
        match faults.storeCrash with
        | some msg => (.error, 0, msg, true)
        | none =>
          match faults.embedCrash with
          | some msg => (.error, 0, msg, true)
          | none =>
            match faults.upsertCrash with
            | some msg => (.error, 0, msg, true)
            | none => (.completed, chunks.length, [], false)

/-- One invocation of `process_document_task`: send `PROCESSING`, run the
body, then the `finally` block always sends the terminal status (errors of
that call are caught and logged) and always deletes the file when it still
exists (a missing file is not an error). -/
def runAttempt (document_id file_path : List Char) (fileExists : Bool)
    (fileSize maxFileSize : Nat) (parse : ParseOutcome)
    (faults : AttemptFaults) : AttemptOutcome :=
  let r := attemptBody file_path fileExists fileSize maxFileSize parse faults
  { notifications :=
      [{ document_id := document_id, status := .processing, chunks_count := 0,
         error_message := [], delivered := faults.notifyOk },
       { document_id := document_id, status := r.1, chunks_count := r.2.1,
         error_message := r.2.2.1, delivered := faults.notifyOk }]
    retried := r.2.2.2
    fileDeleted := fileExists }

/-- The broker's retry loop: re-invoke the task after a retry-raise while
retries remain (`max_retries = 3`); the file-on-disk state carries over
between attempts (the `finally` block of a failed attempt already deleted
it). -/
def runTaskFrom (document_id file_path : List Char) (fileExists : Bool)
    (fileSize maxFileSize : Nat) (parse : ParseOutcome)
    (faults : Nat → AttemptFaults) (attempt retriesLeft : Nat) :
    List AttemptOutcome :=
  let out := runAttempt document_id file_path fileExists fileSize maxFileSize
    parse (faults attempt)
  if out.retried then
    match retriesLeft with
    | 0 => [out]
    | n + 1 =>
      out :: runTaskFrom document_id file_path (fileExists && !out.fileDeleted)
        fileSize maxFileSize parse faults (attempt + 1) n
  else
    [out]

/-- A full broker-level execution of the task: the initial attempt plus up
to `max_retries = 3` re-invocations. -/
def runTask (document_id file_path : List Char) (fileExists : Bool)
    (fileSize maxFileSize : Nat) (parse : ParseOutcome)
    (faults : Nat → AttemptFaults) : List AttemptOutcome :=
  runTaskFrom document_id file_path fileExists fileSize maxFileSize parse
    faults 0 3

/-- The terminal (`COMPLETED`/`ERROR`) notifications of an attempt. -/
def terminalNotifications (out : AttemptOutcome) : List StatusNotification :=
  out.notifications.filter (fun n => n.status ≠ DocStatus.processing)

/-! ## Theorems -/

/-! ### C3: tenant filter of the document search -/

theorem mem_queryPointsDocs {db : List DocPoint} {conds : List DocCondition}
    {limit : Nat} {p : DocPoint} (hp : p ∈ queryPointsDocs db conds limit) :
    docFilterMatches conds p.payload = true := by
  have h1 : p ∈ db.filter (fun pt => docFilterMatches conds pt.payload) :=
    List.take_subset _ _ hp
  exact (List.mem_filter.mp h1).2

/-- C3: the tenant-filtered document search applies exactly the three-case
rule: a non-empty `group_ids` filters on `group_id ∈ group_ids`; otherwise
a given `user_id` filters on `owner_id == user_id`; otherwise it returns
an empty result without calling the engine; `organization_id` never
influences the result; and every returned point satisfies the active
filter. -/
theorem search_with_tenant_filter_spec (db : List DocPoint) (qv : List Int)
    (org : Option Int) (groups : Option (List Int)) (user : Option Int)
    (limit : Nat) :
    (∀ gs, groups = some gs → gs.isEmpty = false →
      search_with_tenant_filter db qv org groups user limit =
        (queryPointsDocs db [DocCondition.groupAny gs] limit, true)) ∧
    (pyTruthyList groups = false → ∀ u, user = some u →
      search_with_tenant_filter db qv org groups user limit =
        (queryPointsDocs db [DocCondition.ownerEq u] limit, true)) ∧
    (pyTruthyList groups = false → user = none →
      search_with_tenant_filter db qv org groups user limit = ([], false)) ∧
    (∀ p ∈ (search_with_tenant_filter db qv org groups user limit).1,
      (∀ gs, groups = some gs → gs.isEmpty = false →
        ∃ g, p.payload.group_id = some g ∧ g ∈ gs) ∧
      (pyTruthyList groups = false → ∀ u, user = some u →
        p.payload.owner_id = some u)) ∧
    (search_with_tenant_filter db qv org groups user limit =
      search_with_tenant_filter db qv none groups user limit) := by
  refine ⟨?_, ?_, ?_, ?_, ?_⟩
  · intro gs hgs hne
    subst hgs
    simp [search_with_tenant_filter, pyTruthyList, hne]
  · intro htr u hu
    subst hu
    simp [search_with_tenant_filter, htr]
  · intro htr hu
    subst hu
    simp [search_with_tenant_filter, htr]
  · intro p hp
    constructor
    · intro gs hgs hne
      subst hgs
      have hmem : p ∈ queryPointsDocs db [DocCondition.groupAny gs] limit := by
        simpa [search_with_tenant_filter, pyTruthyList, hne] using hp
      have hm := mem_queryPointsDocs hmem
      simp only [docFilterMatches, List.all_cons, List.all_nil, Bool.and_true,
        docCondMatches] at hm
      cases hg : p.payload.group_id with
      | none => rw [hg] at hm; exact absurd hm (by simp)
      | some g =>
        rw [hg] at hm
        exact ⟨g, rfl, by simpa using hm⟩
    · intro htr u hu
      subst hu
      have hmem : p ∈ queryPointsDocs db [DocCondition.ownerEq u] limit := by
        simpa [search_with_tenant_filter, htr] using hp
      have hm := mem_queryPointsDocs hmem
      simp only [docFilterMatches, List.all_cons, List.all_nil, Bool.and_true,
        docCondMatches] at hm
      cases ho : p.payload.owner_id with
      | none => rw [ho] at hm; exact absurd hm (by simp)
      | some o =>
        rw [ho] at hm
        simp only [decide_eq_true_eq] at hm
        rw [hm]
  · simp [search_with_tenant_filter]

theorem search_with_tenant_filter_spec_witness :
    (some ([3, 10] : List Int) = some [3, 10]) ∧
    search_with_tenant_filter
      [{ id := "c1".data, vector := [1], payload :=
         { chunk_id := "c1".data, document_id := "d".data,
           filename := "f".data, organization_id := some 1,
           group_id := some 10, owner_id := some 7 } }]
      [1] (some 1) (some [3, 10]) (some 7) 25 =
      (queryPointsDocs
        [{ id := "c1".data, vector := [1], payload :=
           { chunk_id := "c1".data, document_id := "d".data,
             filename := "f".data, organization_id := some 1,
             group_id := some 10, owner_id := some 7 } }]
        [DocCondition.groupAny [3, 10]] 25, true) :=
  ⟨rfl, (search_with_tenant_filter_spec _ [1] (some 1) (some [3, 10])
    (some 7) 25).1 [3, 10] rfl (by decide)⟩

/-! ### C7: scope identifiers stored by a cache save -/

/-- The three payload shapes of the claim's three-scope rule: `user_id`
only, `group_ids` only, or `organization_id` together with `group_ids`. -/
def exactlyOneScopePayload (p : CachePayload) : Bool :=
  (p.user_id.isSome && p.group_ids = none && p.organization_id = none) ||
  (p.group_ids.isSome && p.user_id = none && p.organization_id = none) ||
  (p.organization_id.isSome && p.group_ids.isSome && p.user_id = none)

/-- C7 counterexample: a save with both a `user_id` and a non-empty
`group_ids` (exactly what the `Chat` handler passes for a group-scoped
request) produces a payload carrying BOTH scope identifier sets, so the
entry matches none of the three exclusive shapes of the claim. -/
theorem save_to_cache_stores_two_scope_identifiers :
    save_to_cache [] [1, 2, 3] "r".data none (some 1) (some [2]) =
      [{ vector := [1, 2, 3],
         payload := { response_text := "r".data, organization_id := none,
                      group_ids := some [2], user_id := some 1 } }] ∧
    exactlyOneScopePayload
      { response_text := "r".data, organization_id := none,
        group_ids := some [2], user_id := some 1 } = false := by
  constructor
  · rfl
  · rfl

/-- C7 amended: every cache entry created by `save_to_cache` carries at
least one scope identifier, and the payload stores `organization_id` iff
it was provided, `group_ids` iff a non-empty list was provided, and
`user_id` iff it was provided (so a group-scoped save by a logged-in user
carries `user_id` as well); a save with neither a truthy `group_ids` nor a
`user_id` is a no-op regardless of `organization_id`. -/
theorem save_to_cache_scope_spec (db : List CacheEntry) (qv : List Int)
    (resp : List Char) (org user : Option Int)
    (groups : Option (List Int)) :
    (pyTruthyList groups = false → user = none →
      save_to_cache db qv resp org user groups = db) ∧
    (pyTruthyList groups = true ∨ user ≠ none →
      save_to_cache db qv resp org user groups =
        db ++ [{ vector := qv,
                 payload := savedCachePayload resp org user groups }] ∧
      ((savedCachePayload resp org user groups).user_id.isSome = true ∨
       (savedCachePayload resp org user groups).group_ids.isSome = true) ∧
      (savedCachePayload resp org user groups).organization_id = org ∧
      (savedCachePayload resp org user groups).user_id = user ∧
      (savedCachePayload resp org user groups).group_ids =
        (if pyTruthyList groups then groups else none)) := by
  constructor
  · intro htr hu
    subst hu
    simp [save_to_cache, htr]
  · intro h
    have hcond : (!pyTruthyList groups && user = none) = false := by
      rcases h with h | h
      · simp [h]
      · cases user with
        | none => exact absurd rfl h
        | some u => simp
    refine ⟨by simp [save_to_cache, hcond], ?_, rfl, rfl, ?_⟩
    · rcases h with h | h
      · right
        simp [savedCachePayload, h]
        cases groups with
        | none => simp [pyTruthyList] at h
        | some l => simp
      · left
        cases user with
        | none => exact absurd rfl h
        | some u => simp [savedCachePayload]
    · rfl

theorem save_to_cache_scope_spec_witness :
    (pyTruthyList (some [2]) = true ∨ (some (1 : Int)) ≠ none) ∧
    save_to_cache [] [9] "a".data (some 4) (some 1) (some [2]) =
      [] ++ [{ vector := [9],
               payload := savedCachePayload "a".data (some 4) (some 1)
                 (some [2]) }] :=
  ⟨Or.inl (by decide),
   ((save_to_cache_scope_spec [] [9] "a".data (some 4) (some 1)
     (some [2])).2 (Or.inl (by decide))).1⟩

/-! ### C1: semantic-cache tenant isolation across organizations -/

/-- C1 (code bug, evaluated at the failing input): two `Chat` runs with the
identical query vector `[1, 2, 3]`. Run 1 (organization 1, user 7, groups
`[10]`) saves its answer through the handler's cache-save call; run 2
(organization 2, user 8, groups `[10]`) performs the handler's cache
lookup and RECEIVES the organization-1 entry, because the handler forwards
neither run's `organization_id` to the vector store
(`chat_service.py:158,274`). The second conjunct shows the isolation
machinery itself works when the argument is passed: `search_cache` given
`organization_id = 2` rejects an entry saved with `organization_id = 1`. -/
theorem chat_cache_cross_org_leak :
    chatCacheLookup
      (chatCacheSave [] [1, 2, 3] "org-1 answer".data (some 1) 7 (some [10]))
      [1, 2, 3] (some 2) 8 (some [10]) =
      some { response_text := "org-1 answer".data } ∧
    search_cache
      (save_to_cache [] [1, 2, 3] "org-1 answer".data (some 1) (some 7)
        (some [10]))
      [1, 2, 3] (some 2) (some 8) (some [10]) = none := by
  constructor
  · rfl
  · rfl

/-! ### C2: thinking-tag content must never reach the client -/

/-- C2 (code bug, evaluated at the failing input): for the single-chunk
stream `"<thinking>X<think>Y</thinking>Z"`, the content between the
`<thinking>` start tag and its matching `</thinking>` is `"X<think>Y"`,
yet the scrubber emits `"<thinking>X"` — the region content `X` (whose
only occurrence in the input lies inside the region) reaches the client.
The cause: the provider checks `START_TAGS` in fixed list order, so it
splits at the later `"<think>"` occurrence instead of the earlier
`"<thinking>"`, yielding everything before it. -/
theorem scrubStream_leaks_thinking_content :
    scrubStream ["<thinking>X<think>Y</thinking>Z".data] =
      "<thinking>X".data ∧
    'X' ∈ scrubStream ["<thinking>X<think>Y</thinking>Z".data] := by
  constructor
  · rfl
  · decide

/-! ### C9: algebraic laws of the scrubber -/

/-- C9 counterexample: the scrubber is neither a homomorphism over
chunking nor idempotent. Splitting `"A<think>B</think>C"` after the end
tag yields `"AC"`, while scrubbing the concatenated input yields `"A"`
(the post-region tail buffered in the same chunk as the start tag is
dropped at stream end); and re-scrubbing the output
`"<thinking>X"` (from the C2 input) erases it entirely. -/
theorem scrubStream_not_homomorphic_nor_idempotent :
    (scrubStream ["A<think>B</think>".data, "C".data] = "AC".data ∧
     scrubStream [("A<think>B</think>".data ++ "C".data)] = "A".data ∧
     scrubStream ["A<think>B</think>".data, "C".data] ≠
       scrubStream [("A<think>B</think>".data ++ "C".data)]) ∧
    scrubStream [scrubStream ["<thinking>X<think>Y</thinking>Z".data]] ≠
      scrubStream ["<thinking>X<think>Y</thinking>Z".data] := by
  refine ⟨⟨rfl, rfl, ?_⟩, ?_⟩
  · decide
  · decide

theorem containsSub_head_mem {c : Char} {t s : List Char}
    (h : containsSub (c :: t) s = true) : c ∈ s := by
  induction s with
  | nil =>
    simp [containsSub, findSub] at h
  | cons a rest ih =>
    unfold containsSub findSub at h
    by_cases hpre : (c :: t).isPrefixOf (a :: rest)
    · rcases List.isPrefixOf_iff_prefix.mp hpre with ⟨_, _⟩
      have : c = a := by
        have := List.isPrefixOf_iff_prefix.mp hpre
        rcases this with ⟨u, hu⟩
        cases hu
        rfl
      simp [this]
    · simp only [hpre, if_false, if_neg hpre] at h
      right
      exact ih (by simpa [containsSub] using h)

theorem rfindChar_mem {c : Char} {s : List Char} {i : Nat}
    (h : rfindChar c s = some i) : c ∈ s := by
  induction s generalizing i with
  | nil => simp [rfindChar] at h
  | cons a rest ih =>
    unfold rfindChar at h
    cases hr : rfindChar c rest with
    | some j =>
      right
      exact ih hr
    | none =>
      rw [hr] at h
      by_cases hac : a = c
      · simp [hac]
      · simp [hac] at h

theorem processChunk_of_no_lt {b : List Char}
    (hlt : '<' ∈ b → False) :
    processChunk { buffer := [], thinking := false } b =
      (b, { buffer := [], thinking := false }) := by
  have hth : containsSub "<think>".data b = false := by
    cases hc : containsSub "<think>".data b with
    | false => rfl
    | true => exact absurd (containsSub_head_mem hc) hlt
  have hthg : containsSub "<thinking>".data b = false := by
    cases hc : containsSub "<thinking>".data b with
    | false => rfl
    | true => exact absurd (containsSub_head_mem hc) hlt
  have hrf : rfindChar '<' b = none := by
    cases hr : rfindChar '<' b with
    | none => rfl
    | some i => exact absurd (rfindChar_mem hr) hlt
  simp only [processChunk, List.nil_append, Bool.false_eq_true, if_false]
  rw [show startTagList.find? (fun t => containsSub t b) = none by
    simp [startTagList, hth, hthg]]
  rw [hrf]

theorem scrubFrom_of_no_lt (chunks : List (List Char))
    (h : ∀ c ∈ chunks, ('<' ∈ c) → False) :
    scrubFrom { buffer := [], thinking := false } chunks = chunks.flatten := by
  induction chunks with
  | nil => rfl
  | cons c rest ih =>
    have hc : ('<' ∈ c) → False := h c (List.mem_cons_self c rest)
    have hrest : ∀ d ∈ rest, ('<' ∈ d) → False :=
      fun d hd => h d (List.mem_cons_of_mem c hd)
    unfold scrubFrom
    cases hce : c.isEmpty with
    | true =>
      have : c = [] := List.isEmpty_iff.mp hce
      subst this
      simpa using ih hrest
    | false =>
      rw [processChunk_of_no_lt hc]
      simp [ih hrest]

/-- C9 amended: on streams none of whose chunks contains a `<` character,
the scrubber is the identity — its concatenated output is the
concatenated input — and therefore on such streams it is idempotent
(re-scrubbing its output is a no-op) and a homomorphism over chunking
(the concatenated output equals scrubbing the concatenated input). On
general streams both laws fail (see the counterexample). -/
theorem scrubStream_no_lt_identity (chunks : List (List Char))
    (h : ∀ c ∈ chunks, ('<' ∈ c) → False) :
    scrubStream chunks = chunks.flatten ∧
    scrubStream [scrubStream chunks] = scrubStream chunks ∧
    scrubStream chunks = scrubStream [chunks.flatten] := by
  have hid : scrubStream chunks = chunks.flatten :=
    scrubFrom_of_no_lt chunks h
  have hflat : ∀ d ∈ [chunks.flatten], ('<' ∈ d) → False := by
    intro d hd hmem
    rw [List.mem_singleton] at hd
    subst hd
    rcases List.mem_flatten.mp hmem with ⟨c, hc, hcc⟩
    exact h c hc hcc
  have hone : scrubStream [chunks.flatten] = chunks.flatten := by
    calc scrubStream [chunks.flatten] = [chunks.flatten].flatten :=
          scrubFrom_of_no_lt [chunks.flatten] hflat
      _ = chunks.flatten := by simp
  refine ⟨hid, ?_, by rw [hid, hone]⟩
  rw [hid]
  exact hone

theorem scrubStream_no_lt_identity_witness :
    (∀ c ∈ [("Hi ".data : List Char), "there".data], ('<' ∈ c) → False) ∧
    scrubStream ["Hi ".data, "there".data] =
      [("Hi ".data : List Char), "there".data].flatten :=
  ⟨by decide, (scrubStream_no_lt_identity ["Hi ".data, "there".data]
    (by decide)).1⟩

/-! ### C4: context budget between rerank and the LLM call -/

set_option maxRecDepth 4000 in
/-- C4 counterexample: the `Chat` handler applies no token budget at all.
With `max_context_tokens = 100` and `reserve_output_tokens = 20` the
budget after the 50-token formatting overhead is at most 30 tokens, yet a
single reranked 200-character document (50 tokens under the `chars/4`
fallback) is passed to the LLM untouched, violating the claimed
inequality. -/
theorem chat_context_unbudgeted :
    chatContextDocs [{ text := List.replicate 200 'a', score := 9 }] =
      [List.replicate 200 'a'] ∧
    ¬(((count_tokens charsPerTokenFallback "SYS".data
        + count_tokens charsPerTokenFallback "Q".data
        + ((chatContextDocs [{ text := List.replicate 200 'a', score := 9 }]).map
            (count_tokens charsPerTokenFallback)).sum : Nat) : Int)
      ≤ 100 - 20 - 50) := by
  constructor
  · rfl
  · decide

theorem truncateGreedy_sublist_le (tk : List Char → Nat) (available : Int)
    (docs : List (List Char)) (used : Nat)
    (h : (used : Int) ≤ available) :
    (truncateGreedy tk available docs used).1.Sublist docs ∧
    ((used : Int) +
      (((truncateGreedy tk available docs used).1.map (count_tokens tk)).sum
        : Nat)) ≤ available := by
  induction docs generalizing used with
  | nil =>
    simp [truncateGreedy]
    exact h
  | cons d rest ih =>
    unfold truncateGreedy
    by_cases hfit : ((used + count_tokens tk d : Nat) : Int) ≤ available
    · rw [if_pos hfit]
      have hrec := ih (used + count_tokens tk d) hfit
      refine ⟨List.Sublist.cons₂ d hrec.1, ?_⟩
      simp only [List.map_cons, List.sum_cons]
      have h2 := hrec.2
      push_cast at h2 ⊢
      linarith
    · rw [if_neg hfit]
      exact ⟨List.Sublist.cons d (ih used h).1, (ih used h).2⟩

/-- C4 amended: the `Chat` pipeline itself performs no context budgeting —
the context handed to the LLM is exactly the reranked texts in reranker
order. The budgeting logic exists only in the (pipeline-unused)
`TokenCounter.truncate_context_docs`, which, for any tokenizer, selects a
subsequence of the documents (preserving the reranker's order) whose
total token count fits within
`max_context_tokens − system − query − history − reserve_output − 50`,
greedily: a document that does not fit is skipped but later smaller
documents may still be kept (so the selection is not always a prefix). -/
theorem truncate_context_docs_spec (tk : List Char → Nat)
    (system_prompt query : List Char) (docs hist : List (List Char))
    (maxTok reserve : Int) :
    (∀ ranked : List RankedDoc,
      chatContextDocs ranked = ranked.map RankedDoc.text) ∧
    (truncate_context_docs tk system_prompt query docs hist maxTok
      reserve).1.Sublist docs ∧
    ((((truncate_context_docs tk system_prompt query docs hist maxTok
        reserve).1.map (count_tokens tk)).sum : Nat) : Int) ≤
      max (maxTok - count_tokens tk system_prompt - count_tokens tk query
        - ((hist.map (count_tokens tk)).sum : Nat) - reserve - 50) 0 := by
  refine ⟨fun ranked => rfl, ?_⟩
  unfold truncate_context_docs
  by_cases hd : docs.isEmpty
  · simp [hd, le_max_iff]
  · simp only [hd, Bool.false_eq_true, if_false]
    set available : Int := maxTok - count_tokens tk system_prompt
      - count_tokens tk query - ((hist.map (count_tokens tk)).sum : Nat)
      - reserve - 50 with havail
    by_cases hav : available ≤ 0
    · simp [hav, le_max_iff]
    · simp only [hav, if_neg hav]
      have h0 : ((0 : Nat) : Int) ≤ available := by omega
      have := truncateGreedy_sublist_le tk available docs 0 h0
      refine ⟨this.1, ?_⟩
      have h2 := this.2
      simp only [Nat.cast_zero, zero_add] at h2
      exact le_max_of_le_left h2

theorem truncate_context_docs_spec_witness :
    (truncate_context_docs charsPerTokenFallback "S".data "Q".data
      [List.replicate 8 'a'] [] 100 10).1.Sublist [List.replicate 8 'a'] :=
  (truncate_context_docs_spec charsPerTokenFallback "S".data "Q".data
    [List.replicate 8 'a'] [] 100 10).2.1

/-! ### C5: ingestion retry and cleanup -/

/-- The C5 fault schedule: the vector upsert raises on the first two
attempts and would succeed from the third on. -/
def retryFaultSchedule : Nat → AttemptFaults := fun n =>
  { storeCrash := none
    embedCrash := none
    upsertCrash := if n < 2 then some "qdrant unavailable".data else none
    notifyOk := true }

/-- C5 (code bug, evaluated at the failing input): a document whose vector
upsert fails transiently on the first two attempts. The `finally` block of
the first attempt already sends a terminal ERROR callback and deletes the
source file while the retry is pending, so the second attempt fails with
"File not found" and stops without retrying: the task can never reach
COMPLETED, no callback carries the chunk count 3, and the file is deleted
before the terminal outcome — contradicting the claim that a later
attempt can succeed and that the file is deleted only after the terminal
outcome. -/
theorem ingestion_retry_cannot_succeed :
    runTask "doc-1".data "/tmp/u/doc-1.txt".data true 10 100
        (ParseOutcome.ok ["c1".data, "c2".data, "c3".data])
        retryFaultSchedule =
      [{ notifications :=
           [{ document_id := "doc-1".data, status := .processing,
              chunks_count := 0, error_message := [], delivered := true },
            { document_id := "doc-1".data, status := .error,
              chunks_count := 0,
              error_message := "qdrant unavailable".data,
              delivered := true }],
         retried := true, fileDeleted := true },
       { notifications :=
           [{ document_id := "doc-1".data, status := .processing,
              chunks_count := 0, error_message := [], delivered := true },
            { document_id := "doc-1".data, status := .error,
              chunks_count := 0,
              error_message := "File not found: /tmp/u/doc-1.txt".data,
              delivered := true }],
         retried := false, fileDeleted := false }] := by
  rfl

/-! ### C6: exactly one terminal notification and cleanup per invocation -/

/-- The control-flow-observable part of an attempt: the notification
payloads without the `delivered` flag, plus the retry and deletion
outcomes. -/
def obsAttempt (o : AttemptOutcome) :
    List (List Char × DocStatus × Nat × List Char) × Bool × Bool :=
  (o.notifications.map
    (fun n => (n.document_id, n.status, n.chunks_count, n.error_message)),
   o.retried, o.fileDeleted)

theorem attemptBody_status (file_path : List Char) (fileExists : Bool)
    (fileSize maxFileSize : Nat) (parse : ParseOutcome)
    (faults : AttemptFaults) :
    (attemptBody file_path fileExists fileSize maxFileSize parse faults).1 =
      DocStatus.completed ∨
    (attemptBody file_path fileExists fileSize maxFileSize parse faults).1 =
      DocStatus.error := by
  unfold attemptBody
  repeat' split
  all_goals simp

/-- C6: every invocation of the ingestion worker, whatever the body does,
sends exactly one terminal status notification, whose status is COMPLETED
or ERROR and which carries the document id; it is the last notification
sent; the `finally` block deletes the file exactly when it still exists
(a missing file is not an error); and the success or failure of the
control-plane notification call changes nothing observable (it is caught,
logged and not re-raised). -/
theorem process_document_task_finalization (document_id file_path : List Char)
    (fileExists : Bool) (fileSize maxFileSize : Nat) (parse : ParseOutcome)
    (faults : AttemptFaults) :
    (terminalNotifications (runAttempt document_id file_path fileExists
      fileSize maxFileSize parse faults)).length = 1 ∧
    (∀ n ∈ terminalNotifications (runAttempt document_id file_path fileExists
        fileSize maxFileSize parse faults),
      (n.status = DocStatus.completed ∨ n.status = DocStatus.error) ∧
      n.document_id = document_id) ∧
    (runAttempt document_id file_path fileExists fileSize maxFileSize parse
      faults).notifications.getLast? =
      (terminalNotifications (runAttempt document_id file_path fileExists
        fileSize maxFileSize parse faults)).head? ∧
    (runAttempt document_id file_path fileExists fileSize maxFileSize parse
      faults).fileDeleted = fileExists ∧
    obsAttempt (runAttempt document_id file_path fileExists fileSize
      maxFileSize parse { faults with notifyOk := false }) =
      obsAttempt (runAttempt document_id file_path fileExists fileSize
        maxFileSize parse faults) := by
  have hst := attemptBody_status file_path fileExists fileSize maxFileSize
    parse faults
  have hne : (attemptBody file_path fileExists fileSize maxFileSize parse
      faults).1 ≠ DocStatus.processing := by
    rcases hst with h | h <;> rw [h] <;> intro hcontra <;> cases hcontra
  have hbodyeq : attemptBody file_path fileExists fileSize maxFileSize parse
      { faults with notifyOk := false } =
      attemptBody file_path fileExists fileSize maxFileSize parse faults := by
    unfold attemptBody
    rfl
  have hterm : terminalNotifications (runAttempt document_id file_path
      fileExists fileSize maxFileSize parse faults) =
      [{ document_id := document_id
         status := (attemptBody file_path fileExists fileSize maxFileSize
           parse faults).1
         chunks_count := (attemptBody file_path fileExists fileSize
           maxFileSize parse faults).2.1
         error_message := (attemptBody file_path fileExists fileSize
           maxFileSize parse faults).2.2.1
         delivered := faults.notifyOk }] := by
    simp [runAttempt, terminalNotifications, hne]
  refine ⟨?_, ?_, ?_, rfl, ?_⟩
  · rw [hterm]
    rfl
  · intro n hn
    rw [hterm] at hn
    rcases List.mem_singleton.mp hn with h1
    subst h1
    exact ⟨hst, rfl⟩
  · rw [hterm]
    rfl
  · simp [obsAttempt, runAttempt, hbodyeq]

theorem process_document_task_finalization_witness :
    (terminalNotifications (runAttempt "d".data "/f".data true 1 10
      (ParseOutcome.ok ["c".data])
      { storeCrash := none, embedCrash := none, upsertCrash := none,
        notifyOk := true })).length = 1 :=
  (process_document_task_finalization "d".data "/f".data true 1 10
    (ParseOutcome.ok ["c".data])
    { storeCrash := none, embedCrash := none, upsertCrash := none,
      notifyOk := true }).1

/-! ### C8: LLM stream errors gate the sources message and the cache save -/

/-- C8: every stream chunk is forwarded to the client, in particular any
chunk beginning with `"Error"`; as soon as one such chunk occurs no
terminal sources message is emitted and no cache save happens; and a cache
save implies that no chunk was an error chunk and the concatenated
response text (then equal to the concatenation of all chunks) is
non-empty. -/
theorem chat_llm_error_handling (chunks : List (List Char)) :
    (chatStreamPhase chunks).forwarded = chunks ∧
    ((∃ c ∈ chunks, startsWithError c = true) →
      (chatStreamPhase chunks).sources_emitted = false ∧
      (chatStreamPhase chunks).cache_saved = false) ∧
    ((chatStreamPhase chunks).cache_saved = true →
      (∀ c ∈ chunks, startsWithError c = false) ∧
      (chatStreamPhase chunks).response_text = chunks.flatten ∧
      (chatStreamPhase chunks).response_text ≠ []) := by
  refine ⟨rfl, ?_, ?_⟩
  · intro h
    have hany : chunks.any startsWithError = true := by
      rcases h with ⟨c, hc, hcE⟩
      exact List.any_eq_true.mpr ⟨c, hc, hcE⟩
    simp [chatStreamPhase, hany]
  · intro hsave
    have hany : chunks.any startsWithError = false := by
      cases h : chunks.any startsWithError with
      | false => rfl
      | true => simp [chatStreamPhase, h] at hsave
    have hstrip : pyStripNonEmpty (chatStreamPhase chunks).response_text =
        true := by
      simpa [chatStreamPhase, hany] using hsave
    have hall : ∀ c ∈ chunks, startsWithError c = false := by
      intro c hc
      cases hE : startsWithError c with
      | false => rfl
      | true =>
        have h1 : chunks.any startsWithError = true :=
          List.any_eq_true.mpr ⟨c, hc, hE⟩
        rw [hany] at h1
        exact absurd h1 (by decide)
    have hresp : (chatStreamPhase chunks).response_text = chunks.flatten := by
      have hfil : chunks.filter (fun c => !startsWithError c) = chunks :=
        List.filter_eq_self.mpr (fun c hc => by simp [hall c hc])
      simp [chatStreamPhase, hfil]
    refine ⟨hall, hresp, ?_⟩
    intro hempty
    rw [hempty] at hstrip
    simp [pyStripNonEmpty, pyStrip] at hstrip

theorem chat_llm_error_handling_witness :
    (∃ c ∈ [("Error boom".data : List Char)], startsWithError c = true) ∧
    (chatStreamPhase ["Error boom".data]).cache_saved = false :=
  ⟨by decide, ((chat_llm_error_handling ["Error boom".data]).2.1
    (by decide)).2⟩

/-! ### C10: malformed tenant headers fall back silently -/

/-- C10: a non-integer `x-organization-id` header or an `x-group-ids`
header with a (non-blank) non-integer entry is silently treated as
absent: the tenant context becomes `(None, None)` and the request
proceeds — the document search falls back to the owner-scoped filter and
the cache lookup to the user-scoped filter — instead of being rejected. -/
theorem tenant_header_fallback (orgVal groupVal : List Char)
    (db : List DocPoint) (cdb : List CacheEntry) (qv : List Int) (u : Int)
    (limit : Nat)
    (horg : pyInt orgVal = none)
    (hgrp : ∃ p ∈ (pySplitChar ',' groupVal).filter
        (fun p => !(pyStrip p).isEmpty), pyInt (pyStrip p) = none) :
    get_tenant_context_from_metadata (some orgVal) (some groupVal) =
      { organization_id := none, group_ids := none } ∧
    search_with_tenant_filter db qv none none (some u) limit =
      (queryPointsDocs db [DocCondition.ownerEq u] limit, true) ∧
    chatCacheLookup cdb qv none u none =
      search_cache cdb qv none (some u) none ∧
    buildCacheFilter none (some u) none =
      some [CacheCondition.userEq u] := by
  refine ⟨?_, rfl, rfl, rfl⟩
  have h1 : parseOrgHeader (some orgVal) = none := by
    unfold parseOrgHeader
    by_cases he : orgVal.isEmpty
    · simp [he]
    · simp [he, horg]
  have h2 : parseGroupIdsHeader (some groupVal) = none := by
    unfold parseGroupIdsHeader
    by_cases he : groupVal.isEmpty
    · simp [he]
    · simp only [he, Bool.false_eq_true, if_false]
      rcases hgrp with ⟨p, hp, hpnone⟩
      have hmem : pyInt (pyStrip p) ∈
          ((pySplitChar ',' groupVal).filter
            (fun q => !(pyStrip q).isEmpty)).map
            (fun q => pyInt (pyStrip q)) :=
        List.mem_map_of_mem _ hp
      have hfalse : (((pySplitChar ',' groupVal).filter
          (fun q => !(pyStrip q).isEmpty)).map
            (fun q => pyInt (pyStrip q))).all (fun r => r.isSome) = false := by
        cases hb : (((pySplitChar ',' groupVal).filter
            (fun q => !(pyStrip q).isEmpty)).map
              (fun q => pyInt (pyStrip q))).all (fun r => r.isSome) with
        | false => rfl
        | true =>
          have hsome := List.all_eq_true.mp hb _ hmem
          rw [hpnone] at hsome
          simp at hsome
      simp [hfalse]
  unfold get_tenant_context_from_metadata
  rw [h1, h2]

theorem tenant_header_fallback_witness :
    pyInt "abc".data = none ∧
    (∃ p ∈ (pySplitChar ',' "1,x".data).filter
        (fun p => !(pyStrip p).isEmpty), pyInt (pyStrip p) = none) ∧
    get_tenant_context_from_metadata (some "abc".data) (some "1,x".data) =
      { organization_id := none, group_ids := none } :=
  ⟨by decide, by decide,
   (tenant_header_fallback "abc".data "1,x".data [] [] [] 5 25
     (by decide) (by decide)).1⟩

end StudyAI
